import Mathlib

/-!
Verification of the compliance-finding domain model of the `warden`
repository: the Severity/Status taxonomy and `Violation` record
(`src/frontend/src/types/compliance.ts`), the mock data set
(`src/frontend/src/data/mockData.ts`), the Violations page filter,
the dashboard active-violations view (`src/frontend/src/pages/Index.tsx`),
and the Reports page severity grouping.  The aggregation engine
(`computeMetrics`) and the lifecycle state machine exist only in the
specification, not in the source tree; they are modelled from the spec
and marked as such.
-/

/-- `Severity` from `src/frontend/src/types/compliance.ts`. -/
inductive Severity where
  | critical
  | high
  | medium
  | low
deriving DecidableEq, Repr

/-- `ViolationStatus` from `src/frontend/src/types/compliance.ts`. -/
inductive ViolationStatus where
  | «open»
  | needs_review
  | resolved
  | dismissed
deriving DecidableEq, Repr

/-- `RiskLevel` from `src/frontend/src/types/compliance.ts`. -/
inductive RiskLevel where
  | critical
  | high
  | medium
  | low
  | minimal
deriving DecidableEq, Repr

/-- The TypeScript string literal backing each `Severity` value. -/
def Severity.toStr : Severity → String
  | .critical => "critical"
  | .high => "high"
  | .medium => "medium"
  | .low => "low"

/-- The TypeScript string literal backing each `ViolationStatus` value. -/
def ViolationStatus.toStr : ViolationStatus → String
  | .«open» => "open"
  | .needs_review => "needs_review"
  | .resolved => "resolved"
  | .dismissed => "dismissed"

/-- The optional `reflection` block of a `Violation`
(`src/frontend/src/types/compliance.ts`). -/
structure Reflection where
  initialFinding : String
  reflectionNotes : String
  finalDecision : String
deriving DecidableEq, Repr

/-- The `Violation` interface from `src/frontend/src/types/compliance.ts`. -/
structure Violation where
  id : String
  ruleId : String
  title : String
  description : String
  severity : Severity
  status : ViolationStatus
  evidence : String
  reasoning : String
  remediation : String
  confidence : Nat
  category : String
  detectedAt : String
  reflection : Option Reflection := none
deriving DecidableEq, Repr

/-- The `ComplianceMetrics` interface from
`src/frontend/src/types/compliance.ts`. -/
structure ComplianceMetrics where
  complianceScore : Nat
  criticalIssues : Nat
  moderateIssues : Nat
  missingArtifacts : Nat
  totalViolations : Nat
  riskLevel : RiskLevel
deriving DecidableEq, Repr

/-- `mockMetrics` from `src/frontend/src/data/mockData.ts`. -/
def mockMetrics : ComplianceMetrics :=
  { complianceScore := 78
    criticalIssues := 3
    moderateIssues := 8
    missingArtifacts := 2
    totalViolations := 13
    riskLevel := RiskLevel.medium }

/-- `mockViolations` from `src/frontend/src/data/mockData.ts`. -/
def mockViolations : List Violation :=
  [ { id := "v-001"
      ruleId := "SEC-007"
      title := "Missing encryption at rest for sensitive data storage"
      description := "The application stores sensitive user data without implementing encryption at rest, violating data protection requirements."
      severity := Severity.critical
      status := ViolationStatus.«open»
      category := "Data Protection"
      evidence := "\"userData is stored in plaintext format in the local database without any encryption mechanism applied.\" - Found in database.config.ts, line 47"
      reasoning := "The agent identified that the database configuration explicitly disables encryption (encryption: false) for the user_data collection. This configuration combined with the storage of PII fields (email, phone, address) creates a critical compliance gap."
      remediation := "1. Enable AES-256 encryption for the user_data collection\n2. Implement key rotation policy\n3. Update database.config.ts to set encryption: true\n4. Audit existing data and re-encrypt if necessary"
      confidence := 94
      detectedAt := "2024-01-15T14:28:00Z"
      reflection := some
        { initialFinding := "Detected unencrypted storage configuration for user data collection."
          reflectionNotes := "Cross-referenced with compliance rule SEC-007 which mandates encryption at rest for all PII. Verified that the stored fields (email, phone, address) qualify as PII under GDPR and CCPA definitions."
          finalDecision := "Confirmed as Critical violation. Unencrypted PII storage poses significant regulatory and security risk." } }
  , { id := "v-002"
      ruleId := "AUTH-012"
      title := "Inadequate session timeout configuration"
      description := "User sessions remain active indefinitely without automatic timeout, creating security vulnerabilities."
      severity := Severity.high
      status := ViolationStatus.needs_review
      category := "Authentication"
      evidence := "\"sessionTimeout: -1\" found in auth.config.js - indicates sessions never expire automatically."
      reasoning := "The authentication configuration sets session timeout to -1, which disables automatic session expiration. This violates security best practices and compliance requirements for session management."
      remediation := "1. Set sessionTimeout to 30 minutes (1800000ms) for standard users\n2. Implement idle timeout of 15 minutes\n3. Add session refresh mechanism for active users"
      confidence := 98
      detectedAt := "2024-01-15T14:25:00Z" }
  , { id := "v-003"
      ruleId := "LOG-003"
      title := "Insufficient audit logging for administrative actions"
      description := "Administrative actions are not being logged with required detail level for compliance audit trails."
      severity := Severity.high
      status := ViolationStatus.«open»
      category := "Audit Logging"
      evidence := "Admin controller functions lack @AuditLog decorators. Only 3 of 12 admin endpoints have logging enabled."
      reasoning := "The agent scanned all admin controller files and found that audit logging decorators are inconsistently applied. Critical operations like user deletion and permission changes have no audit trail."
      remediation := "1. Add @AuditLog decorator to all admin controller methods\n2. Include user context, timestamp, and action details\n3. Ensure logs are written to immutable storage"
      confidence := 91
      detectedAt := "2024-01-15T14:26:00Z" }
  , { id := "v-004"
      ruleId := "SEC-015"
      title := "API keys exposed in client-side code"
      description := "Sensitive API keys are bundled into the client-side JavaScript, making them accessible to end users."
      severity := Severity.critical
      status := ViolationStatus.«open»
      category := "Secrets Management"
      evidence := "STRIPE_SECRET_KEY found in bundle.js after build process. Variable referenced in payment.service.ts line 23."
      reasoning := "Build analysis revealed that environment variables prefixed with NEXT_PUBLIC_ include a secret key that should remain server-side only. This exposes the payment provider credentials."
      remediation := "1. Move STRIPE_SECRET_KEY to server-side only environment\n2. Create API route for payment processing\n3. Audit all NEXT_PUBLIC_ variables for sensitive data\n4. Rotate compromised API keys immediately"
      confidence := 99
      detectedAt := "2024-01-15T14:24:00Z" }
  , { id := "v-005"
      ruleId := "DOC-001"
      title := "Missing security architecture documentation"
      description := "Required security architecture documentation is not present in the repository."
      severity := Severity.medium
      status := ViolationStatus.needs_review
      category := "Documentation"
      evidence := "Expected file docs/security-architecture.md not found. No alternative documentation detected in /docs or /security folders."
      reasoning := "Compliance requirements mandate documented security architecture including data flow diagrams, encryption specifications, and access control matrix. None of these artifacts were found."
      remediation := "1. Create docs/security-architecture.md\n2. Include data flow diagrams\n3. Document encryption standards in use\n4. Add access control matrix for all user roles"
      confidence := 100
      detectedAt := "2024-01-15T14:30:00Z" }
  , { id := "v-006"
      ruleId := "DEP-008"
      title := "Outdated dependency with known vulnerability"
      description := "The lodash package version 4.17.15 has a known prototype pollution vulnerability (CVE-2020-8203)."
      severity := Severity.medium
      status := ViolationStatus.«open»
      category := "Dependencies"
      evidence := "package.json specifies \"lodash\": \"4.17.15\". Known vulnerable to CVE-2020-8203 (CVSS 7.4)."
      reasoning := "Dependency analysis identified lodash at version 4.17.15 which is affected by a high-severity prototype pollution vulnerability. The current version is significantly behind the patched release."
      remediation := "1. Update lodash to version 4.17.21 or later\n2. Run npm audit to verify fix\n3. Test application functionality after update"
      confidence := 100
      detectedAt := "2024-01-15T14:29:00Z" }
  , { id := "v-007"
      ruleId := "ACC-002"
      title := "Missing role-based access control on API endpoints"
      description := "Several API endpoints lack proper RBAC implementation, allowing unauthorized access to protected resources."
      severity := Severity.high
      status := ViolationStatus.«open»
      category := "Access Control"
      evidence := "/api/admin/users endpoint accessible without admin role check. Middleware chain missing @RequireRole decorator."
      reasoning := "Analysis of route handlers revealed that admin-prefixed routes do not consistently enforce role requirements. The /users endpoint can be accessed by any authenticated user."
      remediation := "1. Add @RequireRole(\"admin\") decorator to all /api/admin/* routes\n2. Implement middleware to validate roles before handler execution\n3. Add integration tests for role enforcement"
      confidence := 96
      detectedAt := "2024-01-15T14:27:00Z" }
  , { id := "v-008"
      ruleId := "PRIV-004"
      title := "Privacy policy link missing from registration flow"
      description := "User registration does not include required privacy policy acknowledgment."
      severity := Severity.low
      status := ViolationStatus.resolved
      category := "Privacy"
      evidence := "Registration form component (RegisterForm.tsx) lacks privacy policy checkbox or link."
      reasoning := "GDPR and CCPA require explicit user consent and acknowledgment of privacy policy during data collection. The registration form collects PII without this required disclosure."
      remediation := "1. Add privacy policy link to registration form\n2. Implement checkbox for explicit consent\n3. Store consent timestamp in user record"
      confidence := 100
      detectedAt := "2024-01-15T14:31:00Z" }
  ]

/-!
## Filter/Query layer and view selections (from the source pages)
-/

/-- The predicate of `filteredViolations` on the Violations page
(`src/unnamed/part_000`, lines 27-30).  `activeFilter` ranges over the
TypeScript union `"all" | Severity | ViolationStatus`, which is a union of
string literals; the page tests
`activeFilter === "all" ? true : v.severity === activeFilter || v.status === activeFilter`. -/
def matchesFilter (activeFilter : String) (v : Violation) : Bool :=
  if activeFilter = "all" then true
  else v.severity.toStr == activeFilter || v.status.toStr == activeFilter

/-- `filteredViolations` from the Violations page (`src/unnamed/part_000`,
lines 27-30), generalized over the input list; the page applies it to
`mockViolations`. -/
def filteredViolations (activeFilter : String) (vs : List Violation) : List Violation :=
  vs.filter (matchesFilter activeFilter)

/-- `activeViolations` from `src/frontend/src/pages/Index.tsx` (lines 16-19),
generalized over the input list; the page applies it to `mockViolations`:
`mockViolations.filter((v) => v.status === "open" || v.status === "needs_review")`. -/
def activeViolations (vs : List Violation) : List Violation :=
  vs.filter (fun v => v.status == ViolationStatus.«open» || v.status == ViolationStatus.needs_review)

/-- `criticalViolations` from the Reports page (`src/unnamed/part_002`,
lines 9-11): `mockViolations.filter((v) => v.severity === "critical")`. -/
def criticalViolations (vs : List Violation) : List Violation :=
  vs.filter (fun v => v.severity == Severity.critical)

/-- `highViolations` from the Reports page (`src/unnamed/part_002`, line 12):
`mockViolations.filter((v) => v.severity === "high")`. -/
def highViolations (vs : List Violation) : List Violation :=
  vs.filter (fun v => v.severity == Severity.high)

/-- `otherViolations` from the Reports page (`src/unnamed/part_002`,
lines 13-15):
`mockViolations.filter((v) => v.severity !== "critical" && v.severity !== "high")`. -/
def otherViolations (vs : List Violation) : List Violation :=
  vs.filter (fun v => !(v.severity == Severity.critical) && !(v.severity == Severity.high))

/-!
## Aggregation engine, modelled from the spec

The repository contains no `computeMetrics` implementation
(`mockMetrics` is a hand-written constant), so the engine below is
modelled from spec section 4.4.
-/

/-- Modelled from the spec: the status closedness predicate of section 4.1
(`resolved`, `dismissed` are closed; `open`, `needs_review` are active);
no implementation exists under `src/`. -/
def isActive : ViolationStatus → Bool
  | ViolationStatus.«open» => true
  | ViolationStatus.needs_review => true
  | ViolationStatus.resolved => false
  | ViolationStatus.dismissed => false

/-- Modelled from the spec: the severity penalty weights of section 4.4
step 5, "a configuration surface (not hard-coded)"; no implementation
exists under `src/`. -/
structure Weights where
  wCritical : Nat
  wHigh : Nat
  wMedium : Nat
  wLow : Nat
deriving DecidableEq, Repr

/-- The weight a configuration assigns to a severity. -/
def Weights.forSeverity (w : Weights) : Severity → Nat
  | Severity.critical => w.wCritical
  | Severity.high => w.wHigh
  | Severity.medium => w.wMedium
  | Severity.low => w.wLow

/-- Modelled from the spec: the weighted penalty of section 4.4 step 5,
summing `critical*W_c + high*W_h + medium*W_m + low*W_l` over active
violations; no implementation exists under `src/`. -/
def weightedPenalty (w : Weights) (vs : List Violation) : Nat :=
  (vs.filter (fun v => isActive v.status)).foldr
    (fun v acc => w.forSeverity v.severity + acc) 0

/-- Modelled from the spec: the score-threshold bucketing of section 4.4
step 6 (score ge 90 gives minimal, ge 70 low, ge 50 medium, ge 30 high,
else critical); no implementation exists under `src/`. -/
def bucketByScore (score : Nat) : RiskLevel :=
  if 90 ≤ score then RiskLevel.minimal
  else if 70 ≤ score then RiskLevel.low
  else if 50 ≤ score then RiskLevel.medium
  else if 30 ≤ score then RiskLevel.high
  else RiskLevel.critical

/-- Modelled from the spec: risk-level derivation of section 4.4 step 6 —
any active critical finding forces at least `high` risk regardless of
score, otherwise bucket by score; no implementation exists under `src/`. -/
def deriveRiskLevel (score criticalIssues : Nat) : RiskLevel :=
  if 0 < criticalIssues then
    match bucketByScore score with
    | RiskLevel.critical => RiskLevel.critical
    | _ => RiskLevel.high
  else bucketByScore score

/-- The rank of a risk level, for "at least" comparisons
(minimal 0, low 1, medium 2, high 3, critical 4). -/
def riskRank : RiskLevel → Nat
  | RiskLevel.minimal => 0
  | RiskLevel.low => 1
  | RiskLevel.medium => 2
  | RiskLevel.high => 3
  | RiskLevel.critical => 4

/-- Modelled from the spec: `computeMetrics` of section 4.4
(`computeMetrics(violations) -> ComplianceMetrics`, pure); no
implementation exists under `src/`.  Steps 1-6 of the spec algorithm,
parameterized by the weight configuration. -/
def computeMetrics (w : Weights) (vs : List Violation) : ComplianceMetrics :=
  { totalViolations := vs.length
    criticalIssues :=
      vs.countP (fun v => v.severity == Severity.critical && isActive v.status)
    moderateIssues :=
      vs.countP (fun v => v.severity == Severity.medium && isActive v.status)
    missingArtifacts :=
      vs.countP (fun v => v.category == "Documentation" && isActive v.status)
    complianceScore := 100 - min (weightedPenalty w vs) 100
    riskLevel :=
      deriveRiskLevel (100 - min (weightedPenalty w vs) 100)
        (vs.countP (fun v => v.severity == Severity.critical && isActive v.status)) }

/-!
## Lifecycle state machine, modelled from the spec

The repository defines only the `ViolationStatus` type; the transition
rules below are modelled from spec section 4.3.
-/

/-- Modelled from the spec: the error taxonomy of section 7 restricted to
the state machine (`IllegalTransition`, `MissingJustification`); no
implementation exists under `src/`. -/
inductive TransitionError where
  | IllegalTransition
  | MissingJustification
deriving DecidableEq, Repr

/-- Modelled from the spec: the legal status transitions of section 4.3.
Allowed: open to needs_review, open/needs_review to resolved,
open/needs_review to dismissed (the latter requiring a non-empty
justification, else `MissingJustification`); all others are rejected with
`IllegalTransition`.  No implementation exists under `src/`. -/
def transition (current target : ViolationStatus) (justification : String) :
    Except TransitionError ViolationStatus :=
  match current, target with
  | ViolationStatus.«open», ViolationStatus.needs_review =>
      Except.ok ViolationStatus.needs_review
  | ViolationStatus.«open», ViolationStatus.resolved =>
      Except.ok ViolationStatus.resolved
  | ViolationStatus.needs_review, ViolationStatus.resolved =>
      Except.ok ViolationStatus.resolved
  | ViolationStatus.«open», ViolationStatus.dismissed =>
      if justification = "" then Except.error TransitionError.MissingJustification
      else Except.ok ViolationStatus.dismissed
  | ViolationStatus.needs_review, ViolationStatus.dismissed =>
      if justification = "" then Except.error TransitionError.MissingJustification
      else Except.ok ViolationStatus.dismissed
  | _, _ => Except.error TransitionError.IllegalTransition

/-- Modelled from the spec: applying a status transition to a `Violation`
record; on rejection the record is returned unchanged ("reject, no partial
mutation", section 7).  No implementation exists under `src/`. -/
def tryTransition (v : Violation) (target : ViolationStatus) (justification : String) :
    Violation :=
  match transition v.status target justification with
  | Except.ok s => { v with status := s }
  | Except.error _ => v

/-!
## Helper lemmas
-/

/-- The closedness predicate agrees with the literal active-status test. -/
theorem isActive_eq (s : ViolationStatus) :
    isActive s = (s == ViolationStatus.«open» || s == ViolationStatus.needs_review) := by
  cases s <;> rfl

/-- A status never renders to the severity string "critical". -/
theorem status_toStr_ne_critical (s : ViolationStatus) :
    (s.toStr == "critical") = false := by
  cases s <;> rfl

/-- The Violations page predicate at `activeFilter = "critical"` is exactly
the severity test. -/
theorem matchesFilter_critical (v : Violation) :
    matchesFilter "critical" v = (v.severity == Severity.critical) := by
  have h : ∀ (s : Severity) (st : ViolationStatus),
      (if ("critical" : String) = "all" then true
       else s.toStr == "critical" || st.toStr == "critical") = (s == Severity.critical) := by
    intro s st
    cases s <;> cases st <;> rfl
  exact h v.severity v.status

/-- The Violations page predicate at `activeFilter = "all"` accepts
everything. -/
theorem matchesFilter_all (v : Violation) : matchesFilter "all" v = true := rfl

/-!
## Claims about the aggregation engine and the mock data
-/

/-- C1 (amended): for every weight configuration and violation set V,
`computeMetrics(V).totalViolations` equals the cardinality of V; in
particular `computeMetrics` over `mockViolations` yields 8, while the
hand-written `mockMetrics` record reports 13, so `mockMetrics` is not the
metrics record derived from `mockViolations`. -/
theorem computeMetrics_totalViolations_eq_card (w : Weights) (vs : List Violation) :
    (computeMetrics w vs).totalViolations = vs.length ∧
    (computeMetrics w mockViolations).totalViolations = 8 ∧
    mockMetrics.totalViolations = 13 :=
  ⟨rfl, rfl, rfl⟩

/-- C1 (counterexample): `mockMetrics.totalViolations` is 13 but
`mockViolations` holds 8 records, refuting the claim's assertion that
`mockMetrics.totalViolations` equals the cardinality of `mockViolations`. -/
theorem mockMetrics_totalViolations_ne_card :
    mockMetrics.totalViolations = 13 ∧ mockViolations.length = 8 ∧
    mockMetrics.totalViolations ≠ mockViolations.length :=
  ⟨rfl, rfl, by decide⟩

/-- C2 (amended): for every weight configuration and violation set V,
`computeMetrics(V).criticalIssues` equals the number of violations in V
with severity `critical` and status `open` or `needs_review`, and is at
most `totalViolations`; in particular `computeMetrics` over
`mockViolations` yields 2 active criticals, while the hand-written
`mockMetrics` record reports 3. -/
theorem computeMetrics_criticalIssues_spec (w : Weights) (vs : List Violation) :
    (computeMetrics w vs).criticalIssues =
      vs.countP (fun v => v.severity == Severity.critical &&
        (v.status == ViolationStatus.«open» || v.status == ViolationStatus.needs_review)) ∧
    (computeMetrics w vs).criticalIssues ≤ (computeMetrics w vs).totalViolations ∧
    (computeMetrics w mockViolations).criticalIssues = 2 ∧
    mockMetrics.criticalIssues = 3 := by
  refine ⟨?_, ?_, rfl, rfl⟩
  · show vs.countP (fun v => v.severity == Severity.critical && isActive v.status) = _
    refine List.countP_congr ?_
    intro v _
    rw [isActive_eq]
  · exact List.countP_le_length _

/-- C2 (counterexample): `mockMetrics.criticalIssues` is 3, but
`mockViolations` holds only 2 records with severity `critical` and an
active status, refuting the claim's assertion about `mockMetrics`. -/
theorem mockMetrics_criticalIssues_ne_count :
    (mockViolations.countP (fun v => v.severity == Severity.critical &&
      (v.status == ViolationStatus.«open» || v.status == ViolationStatus.needs_review))) = 2 ∧
    mockMetrics.criticalIssues = 3 ∧
    mockMetrics.criticalIssues ≠
      mockViolations.countP (fun v => v.severity == Severity.critical &&
        (v.status == ViolationStatus.«open» || v.status == ViolationStatus.needs_review)) := by
  refine ⟨rfl, rfl, ?_⟩
  intro h
  simp only [mockMetrics] at h
  exact absurd (h.trans rfl) (by decide)

/-- C7 (amended): for every weight configuration and violation set V,
`computeMetrics(V).moderateIssues` equals the number of violations in V
with severity `medium` and status `open` or `needs_review`; in particular
`computeMetrics` over `mockViolations` yields 2, while the hand-written
`mockMetrics` record reports 8. -/
theorem computeMetrics_moderateIssues_spec (w : Weights) (vs : List Violation) :
    (computeMetrics w vs).moderateIssues =
      vs.countP (fun v => v.severity == Severity.medium &&
        (v.status == ViolationStatus.«open» || v.status == ViolationStatus.needs_review)) ∧
    (computeMetrics w mockViolations).moderateIssues = 2 ∧
    mockMetrics.moderateIssues = 8 := by
  refine ⟨?_, rfl, rfl⟩
  show vs.countP (fun v => v.severity == Severity.medium && isActive v.status) = _
  refine List.countP_congr ?_
  intro v _
  rw [isActive_eq]

/-- C7 (counterexample): `mockMetrics.moderateIssues` is 8, but
`mockViolations` holds only 2 records with severity `medium` and an active
status, refuting the claim's assertion about `mockMetrics`. -/
theorem mockMetrics_moderateIssues_ne_count :
    (mockViolations.countP (fun v => v.severity == Severity.medium &&
      (v.status == ViolationStatus.«open» || v.status == ViolationStatus.needs_review))) = 2 ∧
    mockMetrics.moderateIssues = 8 ∧
    mockMetrics.moderateIssues ≠
      mockViolations.countP (fun v => v.severity == Severity.medium &&
        (v.status == ViolationStatus.«open» || v.status == ViolationStatus.needs_review)) := by
  refine ⟨rfl, rfl, ?_⟩
  intro h
  simp only [mockMetrics] at h
  exact absurd (h.trans rfl) (by decide)

/-- C8 (amended): for every weight configuration and violation set V,
`computeMetrics(V).missingArtifacts` equals the number of violations in V
whose category string is exactly "Documentation" and whose status is
`open` or `needs_review`; in particular `computeMetrics` over
`mockViolations` yields 1, while the hand-written `mockMetrics` record
reports 2. -/
theorem computeMetrics_missingArtifacts_spec (w : Weights) (vs : List Violation) :
    (computeMetrics w vs).missingArtifacts =
      vs.countP (fun v => v.category == "Documentation" &&
        (v.status == ViolationStatus.«open» || v.status == ViolationStatus.needs_review)) ∧
    (computeMetrics w mockViolations).missingArtifacts = 1 ∧
    mockMetrics.missingArtifacts = 2 := by
  refine ⟨?_, rfl, rfl⟩
  show vs.countP (fun v => v.category == "Documentation" && isActive v.status) = _
  refine List.countP_congr ?_
  intro v _
  rw [isActive_eq]

/-- C8 (counterexample): `mockMetrics.missingArtifacts` is 2, but
`mockViolations` holds only 1 record with category "Documentation" and an
active status, refuting the claim's assertion about `mockMetrics`. -/
theorem mockMetrics_missingArtifacts_ne_count :
    (mockViolations.countP (fun v => v.category == "Documentation" &&
      (v.status == ViolationStatus.«open» || v.status == ViolationStatus.needs_review))) = 1 ∧
    mockMetrics.missingArtifacts = 2 ∧
    mockMetrics.missingArtifacts ≠
      mockViolations.countP (fun v => v.category == "Documentation" &&
        (v.status == ViolationStatus.«open» || v.status == ViolationStatus.needs_review)) := by
  refine ⟨rfl, rfl, ?_⟩
  intro h
  simp only [mockMetrics] at h
  exact absurd (h.trans rfl) (by decide)

/-- C3 (amended): for every weight configuration and violation set V
containing at least one violation with severity `critical` and status
`open` or `needs_review`, the risk level derived by `computeMetrics` has
rank at least that of `high`, regardless of the compliance score. -/
theorem computeMetrics_risk_forced (w : Weights) (vs : List Violation)
    (h : ∃ v ∈ vs, v.severity = Severity.critical ∧
      (v.status = ViolationStatus.«open» ∨ v.status = ViolationStatus.needs_review)) :
    riskRank RiskLevel.high ≤ riskRank (computeMetrics w vs).riskLevel := by
  obtain ⟨v, hmem, hsev, hstat⟩ := h
  have hpos :
      0 < vs.countP (fun v => v.severity == Severity.critical && isActive v.status) := by
    rw [List.countP_pos_iff]
    refine ⟨v, hmem, ?_⟩
    rw [isActive_eq]
    rcases hstat with h2 | h2 <;> simp [hsev, h2]
  show riskRank RiskLevel.high ≤ riskRank (deriveRiskLevel _ _)
  simp only [deriveRiskLevel, if_pos hpos]
  cases bucketByScore (100 - min (weightedPenalty w vs) 100) <;> simp [riskRank]

/-- C3 (witness): `computeMetrics_risk_forced` applied to `mockViolations`
(whose first record is an open critical finding) under a concrete weight
configuration. -/
theorem computeMetrics_risk_forced_witness :
    riskRank RiskLevel.high ≤
      riskRank (computeMetrics (Weights.mk 25 10 5 1) mockViolations).riskLevel :=
  computeMetrics_risk_forced (Weights.mk 25 10 5 1) mockViolations
    ⟨mockViolations.get ⟨0, by decide⟩,
      List.get_mem mockViolations 0 (by decide), rfl, Or.inl rfl⟩

/-- C3 (counterexample): the hand-written `mockMetrics` record reports
`criticalIssues = 3 > 0` yet carries `riskLevel = medium`, whose rank is
strictly below that of `high` — refuting the claim's assertion that
`mockMetrics` has a risk level of at least `high`. -/
theorem mockMetrics_risk_not_forced :
    0 < mockMetrics.criticalIssues ∧
    mockMetrics.riskLevel = RiskLevel.medium ∧
    riskRank mockMetrics.riskLevel < riskRank RiskLevel.high := by
  decide

/-- C4: filtering with `activeFilter = "critical"` on the Violations page
returns exactly the order-preserved sub-sequence of the input whose
elements have severity `critical`: the result equals the severity-critical
filter of the input and is a sublist (order-preserving subsequence) of it. -/
theorem filteredViolations_critical_spec (vs : List Violation) :
    filteredViolations "critical" vs =
      vs.filter (fun v => v.severity == Severity.critical) ∧
    List.Sublist (filteredViolations "critical" vs) vs :=
  ⟨List.filter_congr (fun v _ => matchesFilter_critical v), List.filter_sublist vs⟩

/-- C5: filtering with the convenience predicate `"all"` on the Violations
page returns the whole input unchanged (hence in original order), and for
every filter value the result is a sublist of the input — the filter never
reorders. -/
theorem filteredViolations_all_spec (activeFilter : String) (vs : List Violation) :
    filteredViolations "all" vs = vs ∧
    List.Sublist (filteredViolations activeFilter vs) vs :=
  ⟨List.filter_eq_self.mpr (fun v _ => matchesFilter_all v), List.filter_sublist vs⟩

/-- C6: from a terminal status (`resolved` or `dismissed`) every attempted
transition fails with `IllegalTransition` and `tryTransition` leaves the
violation record — in particular its status — unchanged. -/
theorem terminal_no_transition (v : Violation) (target : ViolationStatus)
    (j : String)
    (h : v.status = ViolationStatus.resolved ∨ v.status = ViolationStatus.dismissed) :
    transition v.status target j = Except.error TransitionError.IllegalTransition ∧
    tryTransition v target j = v := by
  have ht : transition v.status target j =
      Except.error TransitionError.IllegalTransition := by
    rcases h with h | h <;> rw [h] <;> cases target <;> rfl
  refine ⟨ht, ?_⟩
  unfold tryTransition
  rw [ht]

/-- The resolved record `v-008` of `mockViolations`. -/
def resolvedSample : Violation := mockViolations.get ⟨7, by decide⟩

/-- C6 (witness): `terminal_no_transition` applied to the resolved record
`v-008` of `mockViolations` with a concrete reopen attempt. -/
theorem terminal_no_transition_witness :
    transition resolvedSample.status ViolationStatus.«open» "justified" =
      Except.error TransitionError.IllegalTransition ∧
    tryTransition resolvedSample ViolationStatus.«open» "justified" = resolvedSample :=
  terminal_no_transition resolvedSample ViolationStatus.«open» "justified" (Or.inl rfl)

/-- C9: the dashboard's active-violations selection is an order-preserving
sub-sequence of its input consisting exactly of the records with status
`open` or `needs_review`; no `resolved` or `dismissed` record appears. -/
theorem activeViolations_spec (vs : List Violation) :
    List.Sublist (activeViolations vs) vs ∧
    activeViolations vs = vs.filter (fun v =>
      v.status == ViolationStatus.«open» || v.status == ViolationStatus.needs_review) ∧
    (∀ v ∈ activeViolations vs,
      v.status = ViolationStatus.«open» ∨ v.status = ViolationStatus.needs_review) ∧
    (∀ v ∈ vs,
      (v.status = ViolationStatus.«open» ∨ v.status = ViolationStatus.needs_review) →
      v ∈ activeViolations vs) ∧
    (∀ v ∈ activeViolations vs,
      v.status ≠ ViolationStatus.resolved ∧ v.status ≠ ViolationStatus.dismissed) := by
  refine ⟨List.filter_sublist vs, rfl, ?_, ?_, ?_⟩
  · intro v hv
    simp only [activeViolations, List.mem_filter, Bool.or_eq_true, beq_iff_eq] at hv
    exact hv.2
  · intro v hv h
    simp only [activeViolations, List.mem_filter, Bool.or_eq_true, beq_iff_eq]
    exact ⟨hv, h⟩
  · intro v hv
    simp only [activeViolations, List.mem_filter, Bool.or_eq_true, beq_iff_eq] at hv
    rcases hv.2 with h | h <;> rw [h] <;> exact ⟨by decide, by decide⟩

/-- C9 (witness): `activeViolations_spec` at the concrete input
`mockViolations`. -/
theorem activeViolations_spec_witness :
    List.Sublist (activeViolations mockViolations) mockViolations :=
  (activeViolations_spec mockViolations).1

/-- Three mutually exclusive, jointly exhaustive boolean predicates split a
list's length across their filters. -/
theorem filter_three_partition_length {α : Type} {p q r : α → Bool}
    (h : ∀ a, (p a = true ∧ q a = false ∧ r a = false) ∨
      (p a = false ∧ q a = true ∧ r a = false) ∨
      (p a = false ∧ q a = false ∧ r a = true)) :
    ∀ l : List α,
      (l.filter p).length + (l.filter q).length + (l.filter r).length = l.length := by
  intro l
  induction l with
  | nil => rfl
  | cons a t ih =>
    rcases h a with ⟨h1, h2, h3⟩ | ⟨h1, h2, h3⟩ | ⟨h1, h2, h3⟩ <;>
      simp [List.filter_cons, h1, h2, h3] <;> omega

/-- Every violation satisfies exactly one of the three Reports page
severity predicates. -/
theorem severity_three_way (v : Violation) :
    ((v.severity == Severity.critical) = true ∧
      (v.severity == Severity.high) = false ∧
      (!(v.severity == Severity.critical) && !(v.severity == Severity.high)) = false) ∨
    ((v.severity == Severity.critical) = false ∧
      (v.severity == Severity.high) = true ∧
      (!(v.severity == Severity.critical) && !(v.severity == Severity.high)) = false) ∨
    ((v.severity == Severity.critical) = false ∧
      (v.severity == Severity.high) = false ∧
      (!(v.severity == Severity.critical) && !(v.severity == Severity.high)) = true) := by
  cases v.severity <;> decide

/-- C10: the Reports page's three severity groups partition the input:
their lengths sum to the input's length, each group is an order-preserving
sub-sequence of the input, and every input record belongs to exactly one
group. -/
theorem reports_severity_partition (vs : List Violation) :
    (criticalViolations vs).length + (highViolations vs).length +
      (otherViolations vs).length = vs.length ∧
    List.Sublist (criticalViolations vs) vs ∧
    List.Sublist (highViolations vs) vs ∧
    List.Sublist (otherViolations vs) vs ∧
    ∀ v ∈ vs,
      (v ∈ criticalViolations vs ∧ v ∉ highViolations vs ∧ v ∉ otherViolations vs) ∨
      (v ∉ criticalViolations vs ∧ v ∈ highViolations vs ∧ v ∉ otherViolations vs) ∨
      (v ∉ criticalViolations vs ∧ v ∉ highViolations vs ∧ v ∈ otherViolations vs) := by
  refine ⟨filter_three_partition_length severity_three_way vs,
    List.filter_sublist vs, List.filter_sublist vs, List.filter_sublist vs, ?_⟩
  intro v hmem
  simp only [criticalViolations, highViolations, otherViolations, List.mem_filter,
    hmem, true_and]
  rcases severity_three_way v with ⟨h1, h2, h3⟩ | ⟨h1, h2, h3⟩ | ⟨h1, h2, h3⟩ <;>
    simp [h1, h2, h3]

/-- C10 (witness): the partition length identity of
`reports_severity_partition` at the concrete input `mockViolations`. -/
theorem reports_severity_partition_witness :
    (criticalViolations mockViolations).length +
      (highViolations mockViolations).length +
      (otherViolations mockViolations).length = mockViolations.length :=
  (reports_severity_partition mockViolations).1
